import Mathlib

/-!
Shallow embedding of the stogo client library (package stogo and its config
package) together with proofs about the configuration resolver, the transport
decision of client construction, and the default-scope operations.

Go `time.Duration` is an int64 count of nanoseconds; we model it as `Int`
(overflow plays no role in any construction path verified here).
The remote gRPC service is an external collaborator: it is modelled as an
abstract record of response functions, and every client operation additionally
returns the list of remote calls it issued, so that "no remote call is made"
is a statement about an empty trace.
-/

/-- Go time.Duration: int64 nanoseconds. -/
abbrev Duration := Int

/-- Go time.Second expressed in nanoseconds. -/
def Second : Duration := 1000000000

/-- TLS options record from config.go: holds data used during the TLS
handshake. -/
structure TLS where
  SkipTlsVerification : Bool
  CaCertPath : String
  ServerNameOverride : String
deriving DecidableEq, Repr

/-- StooConfig from config.go. The Go `tls *TLS` pointer field is modelled as
`Option TLS` with `none` for the nil pointer. Go zero values of omitted fields
are the empty string, `false`, `0` and nil. -/
structure StooConfig where
  endpoint : String
  useTls : Bool
  readTimeout : Duration
  defaultNamespace : String
  defaultProfile : String
  tls : Option TLS
deriving DecidableEq, Repr

/-- DefaultTimeout constant from config.go: `10 * time.Second`. -/
def DefaultTimeout : Duration := 10 * Second

/-- NewDefaultStooConfig from config.go: sets only endpoint and readTimeout,
every other field keeps its Go zero value. -/
def NewDefaultStooConfig : StooConfig :=
  { endpoint := "localhost:50051"
    useTls := false
    readTimeout := 10 * Second
    defaultNamespace := ""
    defaultProfile := ""
    tls := none }

/-- NewStooConfig from config.go (the lenient variant): a zero timeout is
replaced by DefaultTimeout, an empty endpoint aborts via log.Fatal, modelled
as `none`. -/
def NewStooConfig (endpoint : String) (timeout : Duration) : Option StooConfig :=
  let timeout := if timeout == 0 then DefaultTimeout else timeout
  if endpoint != "" then
    some { endpoint := endpoint
           useTls := false
           readTimeout := timeout
           defaultNamespace := ""
           defaultProfile := ""
           tls := none }
  else
    none

/-- The strict NewStooConfig variant from the second config.go revision in the
source: requires a non-empty endpoint and a non-zero timeout, aborting (Go
run-time abort) otherwise, modelled as `none`; no default is ever
substituted. -/
def NewStooConfigStrict (endpoint : String) (timeout : Duration) : Option StooConfig :=
  if endpoint != "" && timeout != 0 then
    some { endpoint := endpoint
           useTls := false
           readTimeout := timeout
           defaultNamespace := ""
           defaultProfile := ""
           tls := none }
  else
    none

/-- WithUseTls from config.go: sets useTls and returns the configuration. -/
def StooConfig.WithUseTls (s : StooConfig) (useTls : Bool) : StooConfig :=
  { s with useTls := useTls }

/-- WithDefaultNamespace from config.go: sets defaultNamespace and returns the
configuration. -/
def StooConfig.WithDefaultNamespace (s : StooConfig) (defaultNamespace : String) : StooConfig :=
  { s with defaultNamespace := defaultNamespace }

/-- WithDefaultProfile from config.go: sets defaultProfile and returns the
configuration. -/
def StooConfig.WithDefaultProfile (s : StooConfig) (defaultProfile : String) : StooConfig :=
  { s with defaultProfile := defaultProfile }

/-- WithTls from config.go: sets tls only when the argument pointer is
non-nil; a nil argument leaves the configuration untouched. -/
def StooConfig.WithTls (s : StooConfig) (tls : Option TLS) : StooConfig :=
  match tls with
  | some t => { s with tls := some t }
  | none => s

/-- GetUseTls accessor from config.go. -/
def StooConfig.GetUseTls (s : StooConfig) : Bool := s.useTls

/-- GetDefaultNamespace accessor from config.go. -/
def StooConfig.GetDefaultNamespace (s : StooConfig) : String := s.defaultNamespace

/-- GetDefaultProfile accessor from config.go. -/
def StooConfig.GetDefaultProfile (s : StooConfig) : String := s.defaultProfile

/-- GetEndpoint accessor from config.go. -/
def StooConfig.GetEndpoint (s : StooConfig) : String := s.endpoint

/-- GetReadTimeout accessor from config.go. -/
def StooConfig.GetReadTimeout (s : StooConfig) : Duration := s.readTimeout

/-- GetTls accessor from config.go. -/
def StooConfig.GetTls (s : StooConfig) : Option TLS := s.tls

/-- Go error values appearing in stogo.go: the package-level sentinel and
opaque remote-side errors. -/
inductive GoError where
  | defaultNamespaceAndProfileMustBeDefined
  | remote (msg : String)
deriving DecidableEq, Repr

/-- ErrDefaultNamespaceAndProfileMustBeDefined from stogo.go: the single
sentinel error value shared by every default-scope operation. -/
def ErrDefaultNamespaceAndProfileMustBeDefined : GoError :=
  GoError.defaultNamespaceAndProfileMustBeDefined

/-- A Go `map[string]string` result: `none` models a nil map, `some m` a
non-nil map with entries `m`. -/
abbrev GoMap := Option (List (String × String))

/-- The remote gRPC calls the generated KVServiceClient stub can issue, used
to trace which remote operations a client method performs. -/
inductive RemoteCall where
  | getService (ns profile key : String)
  | setKeyService (ns profile key value : String)
  | setSecretKeyService (ns profile key value : String)
  | deleteKeyService (ns profile key : String)
  | getServiceByNamespaceAndProfile (ns profile : String)
deriving DecidableEq, Repr

/-- The generated gRPC stub (proto.KVServiceClient), an external collaborator:
each method returns the (possibly nil) response message and the error. -/
structure KVServiceClient where
  GetService : String → String → String → Option String × Option GoError
  SetKeyService : String → String → String → String → Option String × Option GoError
  SetSecretKeyService : String → String → String → String → Option String × Option GoError
  DeleteKeyService : String → String → String → Option String × Option GoError
  GetServiceByNamespaceAndProfile : String → String → Option GoMap × Option GoError
deriving Inhabited

/-- Go protobuf GetData() on a possibly-nil response pointer: a nil receiver
yields the empty string. -/
def getData (r : Option String) : String :=
  match r with
  | some s => s
  | none => ""

/-- Go protobuf GetData() for the map-valued response: a nil receiver yields
a nil map. -/
def getDataMap (r : Option GoMap) : GoMap :=
  match r with
  | some m => m
  | none => none

/-- StooClient from stogo.go: the configuration and the bound service stub. -/
structure StooClient where
  Config : StooConfig
  client : KVServiceClient

/-- Get from stogo.go: issues exactly one GetService remote call and returns
res.GetData() with the error. The result is paired with the list of remote
calls issued. -/
def StooClient.Get (c : StooClient) (ns profile key : String) :
    (String × Option GoError) × List RemoteCall :=
  let r := c.client.GetService ns profile key
  ((getData r.1, r.2), [RemoteCall.getService ns profile key])

/-- Set from stogo.go: issues exactly one SetKeyService remote call. -/
def StooClient.Set (c : StooClient) (ns profile key value : String) :
    (String × Option GoError) × List RemoteCall :=
  let r := c.client.SetKeyService ns profile key value
  ((getData r.1, r.2), [RemoteCall.setKeyService ns profile key value])

/-- SetSecret from stogo.go: issues exactly one SetSecretKeyService remote
call. -/
def StooClient.SetSecret (c : StooClient) (ns profile key value : String) :
    (String × Option GoError) × List RemoteCall :=
  let r := c.client.SetSecretKeyService ns profile key value
  ((getData r.1, r.2), [RemoteCall.setSecretKeyService ns profile key value])

/-- Delete from stogo.go: issues exactly one DeleteKeyService remote call. -/
def StooClient.Delete (c : StooClient) (ns profile key : String) :
    (String × Option GoError) × List RemoteCall :=
  let r := c.client.DeleteKeyService ns profile key
  ((getData r.1, r.2), [RemoteCall.deleteKeyService ns profile key])

/-- GetAllByNamespaceAndProfile from stogo.go: issues exactly one
GetServiceByNamespaceAndProfile remote call. -/
def StooClient.GetAllByNamespaceAndProfile (c : StooClient) (ns profile : String) :
    (GoMap × Option GoError) × List RemoteCall :=
  let r := c.client.GetServiceByNamespaceAndProfile ns profile
  ((getDataMap r.1, r.2), [RemoteCall.getServiceByNamespaceAndProfile ns profile])

/-- validateDefaultNamespaceAndProfile from stogo.go: nil when both are
non-empty, the sentinel error otherwise. -/
def validateDefaultNamespaceAndProfile (defaultNamespace defaultProfile : String) :
    Option GoError :=
  if defaultNamespace != "" && defaultProfile != "" then
    none
  else
    some ErrDefaultNamespaceAndProfileMustBeDefined

/-- GetDefault from stogo.go. -/
def StooClient.GetDefault (c : StooClient) (key : String) :
    (String × Option GoError) × List RemoteCall :=
  let defaultNamespace := c.Config.GetDefaultNamespace
  let defaultProfile := c.Config.GetDefaultProfile
  match validateDefaultNamespaceAndProfile defaultNamespace defaultProfile with
  | some err => (("", some err), [])
  | none => c.Get defaultNamespace defaultProfile key

/-- SetDefault from stogo.go. -/
def StooClient.SetDefault (c : StooClient) (key value : String) :
    (String × Option GoError) × List RemoteCall :=
  let defaultNamespace := c.Config.GetDefaultNamespace
  let defaultProfile := c.Config.GetDefaultProfile
  match validateDefaultNamespaceAndProfile defaultNamespace defaultProfile with
  | some err => (("", some err), [])
  | none => c.Set defaultNamespace defaultProfile key value

/-- SetSecretDefault from stogo.go. -/
def StooClient.SetSecretDefault (c : StooClient) (key value : String) :
    (String × Option GoError) × List RemoteCall :=
  let defaultNamespace := c.Config.GetDefaultNamespace
  let defaultProfile := c.Config.GetDefaultProfile
  match validateDefaultNamespaceAndProfile defaultNamespace defaultProfile with
  | some err => (("", some err), [])
  | none => c.SetSecret defaultNamespace defaultProfile key value

/-- DeleteDefault from stogo.go. -/
def StooClient.DeleteDefault (c : StooClient) (key : String) :
    (String × Option GoError) × List RemoteCall :=
  let defaultNamespace := c.Config.GetDefaultNamespace
  let defaultProfile := c.Config.GetDefaultProfile
  match validateDefaultNamespaceAndProfile defaultNamespace defaultProfile with
  | some err => (("", some err), [])
  | none => c.Delete defaultNamespace defaultProfile key

/-- GetAllByDefaultNamespaceAndProfile from stogo.go: returns a nil map with
the sentinel error when the precondition fails. -/
def StooClient.GetAllByDefaultNamespaceAndProfile (c : StooClient) :
    (GoMap × Option GoError) × List RemoteCall :=
  let defaultNamespace := c.Config.GetDefaultNamespace
  let defaultProfile := c.Config.GetDefaultProfile
  match validateDefaultNamespaceAndProfile defaultNamespace defaultProfile with
  | some err => ((none, some err), [])
  | none => c.GetAllByNamespaceAndProfile defaultNamespace defaultProfile

/-- The transport credential NewStoreClient selects for grpc.Dial. -/
inductive TransportCredential where
  | insecureCredentials
  | tlsSkipVerify
  | tlsFromCaFile (caCertPath serverNameOverride : String)
deriving DecidableEq, Repr

/-- Outcome of the credential-selection part of NewStoreClient in stogo.go:
either a credential, a nil-pointer dereference (GetTls() is nil while useTls
is true), or the log.Fatalf abort when the CA certificate cannot be read. -/
inductive BuildOutcome where
  | ok (cred : TransportCredential)
  | nilPointerDeref
  | fatalCaCertRead (caCertPath : String)
deriving DecidableEq, Repr

/-- The credential decision of NewStoreClient from stogo.go, parametrised by
`caReadable`, the file-system oracle telling whether
credentials.NewClientTLSFromFile succeeds on a given CA path. When useTls is
set the code reads `cfg.GetTls().SkipTlsVerification`, which dereferences a
nil pointer when tls was never set. -/
def NewStoreClientTransport (caReadable : String → Bool) (cfg : StooConfig) : BuildOutcome :=
  if cfg.GetUseTls then
    match cfg.GetTls with
    | none => BuildOutcome.nilPointerDeref
    | some t =>
      if !t.SkipTlsVerification then
        if caReadable t.CaCertPath then
          BuildOutcome.ok (TransportCredential.tlsFromCaFile t.CaCertPath t.ServerNameOverride)
        else
          BuildOutcome.fatalCaCertRead t.CaCertPath
      else
        BuildOutcome.ok TransportCredential.tlsSkipVerify
  else
    BuildOutcome.ok TransportCredential.insecureCredentials

/-- A concrete service stub with constant responses, used as the backing
service of concrete example clients. -/
def constStub : KVServiceClient :=
  { GetService := fun _ _ _ => (some ("got"), none)
    SetKeyService := fun _ _ _ _ => (some ("set"), none)
    SetSecretKeyService := fun _ _ _ _ => (some ("secret"), none)
    DeleteKeyService := fun _ _ _ => (some ("deleted"), none)
    GetServiceByNamespaceAndProfile := fun _ _ => (some (some [(("a"), ("1"))]), none) }

/-- A client built from the default configuration: no default namespace or
profile is set. -/
def defaultClient : StooClient :=
  { Config := NewDefaultStooConfig, client := constStub }

/-- A client whose configuration carries both a default namespace and a
default profile. -/
def appClient : StooClient :=
  { Config := (NewDefaultStooConfig.WithDefaultNamespace ("my-app")).WithDefaultProfile ("prod")
    client := constStub }

/-- validateDefaultNamespaceAndProfile returns the sentinel error whenever
either argument is empty. -/
theorem validate_fails_of_empty (ns p : String) (h : ns = "" ∨ p = "") :
    validateDefaultNamespaceAndProfile ns p =
      some ErrDefaultNamespaceAndProfileMustBeDefined := by
  rcases h with h | h <;> subst h <;>
    simp [validateDefaultNamespaceAndProfile]

/-- validateDefaultNamespaceAndProfile returns nil when both arguments are
non-empty. -/
theorem validate_ok_of_nonempty (ns p : String) (h1 : ns ≠ "") (h2 : p ≠ "") :
    validateDefaultNamespaceAndProfile ns p = none := by
  simp [validateDefaultNamespaceAndProfile, h1, h2]

/-- Shared description of the failing default-scope path: with an empty
default namespace or profile, each of the five default-scope operations
returns its zero result with the sentinel error and an empty remote-call
trace. -/
theorem default_ops_error_of_empty (c : StooClient) (key value : String)
    (h : c.Config.defaultNamespace = "" ∨ c.Config.defaultProfile = "") :
    c.GetDefault key = ((("", some ErrDefaultNamespaceAndProfileMustBeDefined)), []) ∧
    c.SetDefault key value =
      ((("", some ErrDefaultNamespaceAndProfileMustBeDefined)), []) ∧
    c.SetSecretDefault key value =
      ((("", some ErrDefaultNamespaceAndProfileMustBeDefined)), []) ∧
    c.DeleteDefault key = ((("", some ErrDefaultNamespaceAndProfileMustBeDefined)), []) ∧
    c.GetAllByDefaultNamespaceAndProfile =
      (((none : GoMap), some ErrDefaultNamespaceAndProfileMustBeDefined), []) := by
  have hv := validate_fails_of_empty c.Config.defaultNamespace c.Config.defaultProfile h
  simp [StooClient.GetDefault, StooClient.SetDefault, StooClient.SetSecretDefault,
    StooClient.DeleteDefault, StooClient.GetAllByDefaultNamespaceAndProfile,
    StooConfig.GetDefaultNamespace, StooConfig.GetDefaultProfile, hv]

/-- Claim C1: when defaultNamespace or defaultProfile is empty, every
default-scope operation (GetDefault, SetDefault, SetSecretDefault,
DeleteDefault, GetAllByDefaultNamespaceAndProfile) returns the sentinel error
ErrDefaultNamespaceAndProfileMustBeDefined and issues no remote call (its
remote-call trace is empty, so the underlying scoped operation is never
invoked). -/
theorem c1_default_ops_error_without_remote_call (c : StooClient) (key value : String)
    (h : c.Config.defaultNamespace = "" ∨ c.Config.defaultProfile = "") :
    ((c.GetDefault key).1.2 = some ErrDefaultNamespaceAndProfileMustBeDefined ∧
      (c.GetDefault key).2 = []) ∧
    ((c.SetDefault key value).1.2 = some ErrDefaultNamespaceAndProfileMustBeDefined ∧
      (c.SetDefault key value).2 = []) ∧
    ((c.SetSecretDefault key value).1.2 = some ErrDefaultNamespaceAndProfileMustBeDefined ∧
      (c.SetSecretDefault key value).2 = []) ∧
    ((c.DeleteDefault key).1.2 = some ErrDefaultNamespaceAndProfileMustBeDefined ∧
      (c.DeleteDefault key).2 = []) ∧
    (c.GetAllByDefaultNamespaceAndProfile.1.2 =
        some ErrDefaultNamespaceAndProfileMustBeDefined ∧
      c.GetAllByDefaultNamespaceAndProfile.2 = []) := by
  have hv := validate_fails_of_empty c.Config.defaultNamespace c.Config.defaultProfile h
  simp [StooClient.GetDefault, StooClient.SetDefault, StooClient.SetSecretDefault,
    StooClient.DeleteDefault, StooClient.GetAllByDefaultNamespaceAndProfile,
    StooConfig.GetDefaultNamespace, StooConfig.GetDefaultProfile, hv]

/-- Witness for C1: on the default configuration (empty default namespace and
profile) GetDefault returns the sentinel error with an empty remote-call
trace, and likewise for the other four operations. -/
theorem c1_default_ops_error_without_remote_call_witness :
    (defaultClient.Config.defaultNamespace = "" ∨
      defaultClient.Config.defaultProfile = "") ∧
    (((defaultClient.GetDefault ("k")).1.2 =
        some ErrDefaultNamespaceAndProfileMustBeDefined ∧
      (defaultClient.GetDefault ("k")).2 = []) ∧
    (((defaultClient.SetDefault ("k") ("v")).1.2 =
        some ErrDefaultNamespaceAndProfileMustBeDefined ∧
      (defaultClient.SetDefault ("k") ("v")).2 = []) ∧
    (((defaultClient.SetSecretDefault ("k") ("v")).1.2 =
        some ErrDefaultNamespaceAndProfileMustBeDefined ∧
      (defaultClient.SetSecretDefault ("k") ("v")).2 = []) ∧
    (((defaultClient.DeleteDefault ("k")).1.2 =
        some ErrDefaultNamespaceAndProfileMustBeDefined ∧
      (defaultClient.DeleteDefault ("k")).2 = []) ∧
    (defaultClient.GetAllByDefaultNamespaceAndProfile.1.2 =
        some ErrDefaultNamespaceAndProfileMustBeDefined ∧
      defaultClient.GetAllByDefaultNamespaceAndProfile.2 = []))))) :=
  ⟨Or.inl rfl,
    c1_default_ops_error_without_remote_call defaultClient ("k") ("v") (Or.inl rfl)⟩

/-- Claim C10: when the default-scope precondition fails, the four point
operations return the empty string as value, GetAllByDefaultNamespaceAndProfile
returns a nil map, and all five return the one shared sentinel value
ErrDefaultNamespaceAndProfileMustBeDefined, whose type has decidable equality,
so callers identify the scope error by direct equality comparison. -/
theorem c10_scope_error_shape (c : StooClient) (key value : String)
    (h : c.Config.defaultNamespace = "" ∨ c.Config.defaultProfile = "") :
    (c.GetDefault key).1 = (("", some ErrDefaultNamespaceAndProfileMustBeDefined)) ∧
    (c.SetDefault key value).1 = (("", some ErrDefaultNamespaceAndProfileMustBeDefined)) ∧
    (c.SetSecretDefault key value).1 =
      (("", some ErrDefaultNamespaceAndProfileMustBeDefined)) ∧
    (c.DeleteDefault key).1 = (("", some ErrDefaultNamespaceAndProfileMustBeDefined)) ∧
    c.GetAllByDefaultNamespaceAndProfile.1 =
      ((none : GoMap), some ErrDefaultNamespaceAndProfileMustBeDefined) := by
  have hv := validate_fails_of_empty c.Config.defaultNamespace c.Config.defaultProfile h
  simp [StooClient.GetDefault, StooClient.SetDefault, StooClient.SetSecretDefault,
    StooClient.DeleteDefault, StooClient.GetAllByDefaultNamespaceAndProfile,
    StooConfig.GetDefaultNamespace, StooConfig.GetDefaultProfile, hv]

/-- Witness for C10: a client with an empty default profile but a non-empty
default namespace returns the empty string (a nil map for the bulk read)
together with the sentinel error from every default-scope operation. -/
theorem c10_scope_error_shape_witness :
    ((NewDefaultStooConfig.WithDefaultNamespace ("my-app")).defaultNamespace = "" ∨
      (NewDefaultStooConfig.WithDefaultNamespace ("my-app")).defaultProfile = "") ∧
    ((StooClient.mk (NewDefaultStooConfig.WithDefaultNamespace ("my-app")) constStub).GetDefault
        ("key1")).1 = (("", some ErrDefaultNamespaceAndProfileMustBeDefined)) ∧
    ((StooClient.mk (NewDefaultStooConfig.WithDefaultNamespace ("my-app")) constStub).SetDefault
        ("key1") ("val1")).1 = (("", some ErrDefaultNamespaceAndProfileMustBeDefined)) ∧
    ((StooClient.mk (NewDefaultStooConfig.WithDefaultNamespace ("my-app")) constStub).SetSecretDefault
        ("key1") ("val1")).1 = (("", some ErrDefaultNamespaceAndProfileMustBeDefined)) ∧
    ((StooClient.mk (NewDefaultStooConfig.WithDefaultNamespace ("my-app")) constStub).DeleteDefault
        ("key1")).1 = (("", some ErrDefaultNamespaceAndProfileMustBeDefined)) ∧
    (StooClient.mk (NewDefaultStooConfig.WithDefaultNamespace ("my-app"))
        constStub).GetAllByDefaultNamespaceAndProfile.1 =
      ((none : GoMap), some ErrDefaultNamespaceAndProfileMustBeDefined) := by
  refine ⟨Or.inr rfl, ?_⟩
  have h := c10_scope_error_shape
    (StooClient.mk (NewDefaultStooConfig.WithDefaultNamespace ("my-app")) constStub)
    ("key1") ("val1") (Or.inr rfl)
  exact ⟨h.1, h.2.1, h.2.2.1, h.2.2.2.1, h.2.2.2.2⟩

/-- Claim C6: when both defaultNamespace and defaultProfile are non-empty,
each default-scope operation is exactly the corresponding scoped operation
applied to the two defaults: same result pair and the same remote-call
trace. -/
theorem c6_default_ops_delegate (c : StooClient) (key value : String)
    (hns : c.Config.defaultNamespace ≠ "") (hp : c.Config.defaultProfile ≠ "") :
    c.GetDefault key = c.Get c.Config.defaultNamespace c.Config.defaultProfile key ∧
    c.SetDefault key value =
      c.Set c.Config.defaultNamespace c.Config.defaultProfile key value ∧
    c.SetSecretDefault key value =
      c.SetSecret c.Config.defaultNamespace c.Config.defaultProfile key value ∧
    c.DeleteDefault key =
      c.Delete c.Config.defaultNamespace c.Config.defaultProfile key ∧
    c.GetAllByDefaultNamespaceAndProfile =
      c.GetAllByNamespaceAndProfile c.Config.defaultNamespace c.Config.defaultProfile := by
  have hv := validate_ok_of_nonempty c.Config.defaultNamespace c.Config.defaultProfile hns hp
  simp [StooClient.GetDefault, StooClient.SetDefault, StooClient.SetSecretDefault,
    StooClient.DeleteDefault, StooClient.GetAllByDefaultNamespaceAndProfile,
    StooConfig.GetDefaultNamespace, StooConfig.GetDefaultProfile, hv]

/-- Witness for C6: on a client with default namespace my-app and default
profile prod, every default-scope operation equals the scoped operation at
those two defaults. -/
theorem c6_default_ops_delegate_witness :
    appClient.Config.defaultNamespace ≠ "" ∧
    appClient.Config.defaultProfile ≠ "" ∧
    appClient.GetDefault ("k") =
      appClient.Get appClient.Config.defaultNamespace
        appClient.Config.defaultProfile ("k") ∧
    appClient.SetDefault ("k") ("v") =
      appClient.Set appClient.Config.defaultNamespace
        appClient.Config.defaultProfile ("k") ("v") ∧
    appClient.SetSecretDefault ("k") ("v") =
      appClient.SetSecret appClient.Config.defaultNamespace
        appClient.Config.defaultProfile ("k") ("v") ∧
    appClient.DeleteDefault ("k") =
      appClient.Delete appClient.Config.defaultNamespace
        appClient.Config.defaultProfile ("k") ∧
    appClient.GetAllByDefaultNamespaceAndProfile =
      appClient.GetAllByNamespaceAndProfile appClient.Config.defaultNamespace
        appClient.Config.defaultProfile := by
  have hns : appClient.Config.defaultNamespace ≠ "" := by decide
  have hp : appClient.Config.defaultProfile ≠ "" := by decide
  have h := c6_default_ops_delegate appClient ("k") ("v") hns hp
  exact ⟨hns, hp, h.1, h.2.1, h.2.2.1, h.2.2.2.1, h.2.2.2.2⟩

/-- Claim C9: NewDefaultStooConfig always yields endpoint localhost:50051, a
read timeout of 10 seconds (10 time-units), useTls false, empty default
namespace and profile, and no TLS options; consequently on a client built
from it (with any backing service stub) every default-scope operation returns
the scope error. -/
theorem c9_default_config (svc : KVServiceClient) (key value : String) :
    NewDefaultStooConfig.GetEndpoint = "localhost:50051" ∧
    NewDefaultStooConfig.GetReadTimeout = 10 * Second ∧
    NewDefaultStooConfig.GetUseTls = false ∧
    NewDefaultStooConfig.GetDefaultNamespace = "" ∧
    NewDefaultStooConfig.GetDefaultProfile = "" ∧
    NewDefaultStooConfig.GetTls = none ∧
    ((StooClient.mk NewDefaultStooConfig svc).GetDefault key).1.2 =
      some ErrDefaultNamespaceAndProfileMustBeDefined ∧
    ((StooClient.mk NewDefaultStooConfig svc).SetDefault key value).1.2 =
      some ErrDefaultNamespaceAndProfileMustBeDefined ∧
    ((StooClient.mk NewDefaultStooConfig svc).SetSecretDefault key value).1.2 =
      some ErrDefaultNamespaceAndProfileMustBeDefined ∧
    ((StooClient.mk NewDefaultStooConfig svc).DeleteDefault key).1.2 =
      some ErrDefaultNamespaceAndProfileMustBeDefined ∧
    (StooClient.mk NewDefaultStooConfig svc).GetAllByDefaultNamespaceAndProfile.1.2 =
      some ErrDefaultNamespaceAndProfileMustBeDefined := by
  refine ⟨rfl, rfl, rfl, rfl, rfl, rfl, ?_⟩
  have h := default_ops_error_of_empty
    (StooClient.mk NewDefaultStooConfig svc) key value (Or.inl rfl)
  exact ⟨by rw [h.1], by rw [h.2.1], by rw [h.2.2.1], by rw [h.2.2.2.1],
    by rw [h.2.2.2.2]⟩

/-- Claim C3: the lenient NewStooConfig fails exactly on an empty endpoint and
substitutes DefaultTimeout for a zero timeout; the strict variant fails
exactly when the endpoint is empty or the timeout is zero, and stores the
supplied timeout unchanged (never substituting a default). -/
theorem c3_construction_variants (endpoint : String) (timeout : Duration) :
    (NewStooConfig endpoint timeout = none ↔ endpoint = "") ∧
    (∀ cfg, NewStooConfig endpoint timeout = some cfg →
      cfg.GetReadTimeout = if timeout = 0 then DefaultTimeout else timeout) ∧
    (NewStooConfigStrict endpoint timeout = none ↔ (endpoint = "" ∨ timeout = 0)) ∧
    (∀ cfg, NewStooConfigStrict endpoint timeout = some cfg →
      cfg.GetReadTimeout = timeout) := by
  refine ⟨?_, ?_, ?_, ?_⟩
  · by_cases he : endpoint = "" <;>
      simp [NewStooConfig, he]
  · intro cfg hcfg
    by_cases he : endpoint = "" <;>
      by_cases ht : timeout = 0 <;>
      simp [NewStooConfig, he, ht] at hcfg ⊢ <;>
      simp [← hcfg, StooConfig.GetReadTimeout]
  · by_cases he : endpoint = "" <;>
      by_cases ht : timeout = 0 <;>
      simp [NewStooConfigStrict, he, ht]
  · intro cfg hcfg
    by_cases he : endpoint = ""
    · simp [NewStooConfigStrict, he] at hcfg
    · by_cases ht : timeout = 0
      · simp [NewStooConfigStrict, he, ht] at hcfg
      · simp [NewStooConfigStrict, he, ht] at hcfg
        simp [← hcfg, StooConfig.GetReadTimeout]

/-- The configuration the lenient constructor builds for endpoint svc:50051
and a zero timeout. -/
def cfgZeroTimeout : StooConfig :=
  { endpoint := "svc:50051"
    useTls := false
    readTimeout := DefaultTimeout
    defaultNamespace := ""
    defaultProfile := ""
    tls := none }

/-- The configuration the strict constructor builds for endpoint svc:50051 and
a 20-second timeout. -/
def cfgTwentySeconds : StooConfig :=
  { endpoint := "svc:50051"
    useTls := false
    readTimeout := 20 * Second
    defaultNamespace := ""
    defaultProfile := ""
    tls := none }

/-- Witness for C3: the lenient constructor fails on an empty endpoint,
succeeds at endpoint svc:50051 with a zero timeout storing DefaultTimeout,
while the strict constructor fails on the same zero timeout and stores a
20-second timeout unchanged. -/
theorem c3_construction_variants_witness :
    NewStooConfig ("") (20 * Second) = none ∧
    NewStooConfig ("svc:50051") 0 = some cfgZeroTimeout ∧
    cfgZeroTimeout.GetReadTimeout = DefaultTimeout ∧
    NewStooConfigStrict ("svc:50051") 0 = none ∧
    NewStooConfigStrict ("svc:50051") (20 * Second) = some cfgTwentySeconds ∧
    cfgTwentySeconds.GetReadTimeout = 20 * Second := by
  have e1 : NewStooConfig ("svc:50051") 0 = some cfgZeroTimeout := by decide
  have e2 : NewStooConfigStrict ("svc:50051") (20 * Second) = some cfgTwentySeconds := by
    decide
  have h1 := (c3_construction_variants ("") (20 * Second)).1.mpr rfl
  have h2 := (c3_construction_variants ("svc:50051") 0).2.1 cfgZeroTimeout e1
  have h3 := (c3_construction_variants ("svc:50051") 0).2.2.1.mpr (Or.inr rfl)
  have h4 := (c3_construction_variants ("svc:50051") (20 * Second)).2.2.2
    cfgTwentySeconds e2
  simp at h2
  exact ⟨h1, e1, h2, h3, e2, h4⟩

/-- The configuration the lenient constructor builds for endpoint svc:50051
and a timeout of -1 nanoseconds. -/
def cfgNegTimeout : StooConfig :=
  { endpoint := "svc:50051"
    useTls := false
    readTimeout := -1
    defaultNamespace := ""
    defaultProfile := ""
    tls := none }

/-- Counterexample to C4: the construction check is `timeout == 0` only, so
the negative input timeout -1 passes through unchanged and the timeout
accessor of the successfully constructed configuration returns a value that is
not strictly positive. -/
theorem c4_counterexample :
    NewStooConfig ("svc:50051") (-1) = some cfgNegTimeout ∧
    ¬ 0 < cfgNegTimeout.GetReadTimeout := by decide

/-- Claim C4 (amended): for every non-negative input timeout, every
configuration produced by either construction variant has a strictly positive
stored timeout (zero is replaced by the default), and the default constructor
does too; negative input timeouts are stored unchanged, so the invariant is
restricted to non-negative inputs. -/
theorem c4_amended_positive_timeout (endpoint : String) (timeout : Duration)
    (ht : 0 ≤ timeout) :
    (∀ cfg, NewStooConfig endpoint timeout = some cfg → 0 < cfg.GetReadTimeout) ∧
    (∀ cfg, NewStooConfigStrict endpoint timeout = some cfg → 0 < cfg.GetReadTimeout) ∧
    0 < NewDefaultStooConfig.GetReadTimeout := by
  refine ⟨?_, ?_, by decide⟩
  · intro cfg hcfg
    by_cases he : endpoint = ""
    · simp [NewStooConfig, he] at hcfg
    · by_cases h0 : timeout = 0
      · simp [NewStooConfig, he, h0] at hcfg
        simp [← hcfg, StooConfig.GetReadTimeout]
        decide
      · simp [NewStooConfig, he, h0] at hcfg
        simp [← hcfg, StooConfig.GetReadTimeout]
        exact lt_of_le_of_ne ht (Ne.symm h0)
  · intro cfg hcfg
    by_cases he : endpoint = ""
    · simp [NewStooConfigStrict, he] at hcfg
    · by_cases h0 : timeout = 0
      · simp [NewStooConfigStrict, he, h0] at hcfg
      · simp [NewStooConfigStrict, he, h0] at hcfg
        simp [← hcfg, StooConfig.GetReadTimeout]
        exact lt_of_le_of_ne ht (Ne.symm h0)

/-- Witness for the amended C4: at endpoint svc:50051 with the non-negative
timeout 20 seconds the strictly constructed configuration has a positive
stored timeout, and so does the default configuration. -/
theorem c4_amended_positive_timeout_witness :
    (0 : Duration) ≤ 20 * Second ∧
    NewStooConfigStrict ("svc:50051") (20 * Second) = some cfgTwentySeconds ∧
    0 < cfgTwentySeconds.GetReadTimeout ∧
    0 < NewDefaultStooConfig.GetReadTimeout := by
  have h := c4_amended_positive_timeout ("svc:50051") (20 * Second) (by decide)
  have e : NewStooConfigStrict ("svc:50051") (20 * Second) = some cfgTwentySeconds := by
    decide
  exact ⟨by decide, e, h.2.1 cfgTwentySeconds e, h.2.2⟩

/-- Claim C5: for every non-empty endpoint and strictly positive timeout the
lenient constructor succeeds, and the built configuration returns exactly the
supplied endpoint from GetEndpoint and exactly the supplied timeout from
GetReadTimeout; with a zero timeout it stores the documented default of 10
seconds (DefaultTimeout = 10 time-units). -/
theorem c5_construction_accessors (endpoint : String) (timeout : Duration)
    (he : endpoint ≠ "") (ht : 0 < timeout) :
    (∃ cfg, NewStooConfig endpoint timeout = some cfg ∧
      cfg.GetEndpoint = endpoint ∧ cfg.GetReadTimeout = timeout) ∧
    (∀ cfg, NewStooConfig endpoint 0 = some cfg →
      cfg.GetEndpoint = endpoint ∧ cfg.GetReadTimeout = DefaultTimeout) ∧
    DefaultTimeout = 10 * Second := by
  have h0 : ¬ timeout = 0 := ne_of_gt ht
  refine ⟨?_, ?_, rfl⟩
  · refine ⟨{ endpoint := endpoint
              useTls := false
              readTimeout := timeout
              defaultNamespace := ""
              defaultProfile := ""
              tls := none }, ?_, rfl, rfl⟩
    simp [NewStooConfig, he, h0]
  · intro cfg hcfg
    simp [NewStooConfig, he] at hcfg
    constructor
    · simp [← hcfg, StooConfig.GetEndpoint]
    · simp [← hcfg, StooConfig.GetReadTimeout]

/-- Witness for C5: at endpoint svc:50051 with a 20-second timeout the built
configuration returns that endpoint and timeout; with a zero timeout it
returns the 10-second default. -/
theorem c5_construction_accessors_witness :
    ("svc:50051" : String) ≠ "" ∧
    (0 : Duration) < 20 * Second ∧
    NewStooConfig ("svc:50051") (20 * Second) = some cfgTwentySeconds ∧
    cfgTwentySeconds.GetEndpoint = "svc:50051" ∧
    cfgTwentySeconds.GetReadTimeout = 20 * Second ∧
    NewStooConfig ("svc:50051") 0 = some cfgZeroTimeout ∧
    cfgZeroTimeout.GetEndpoint = "svc:50051" ∧
    cfgZeroTimeout.GetReadTimeout = DefaultTimeout := by
  have h := c5_construction_accessors ("svc:50051") (20 * Second) (by decide) (by decide)
  have e0 : NewStooConfig ("svc:50051") 0 = some cfgZeroTimeout := by decide
  have hz := h.2.1 cfgZeroTimeout e0
  exact ⟨by decide, by decide, by decide, by decide, by decide, e0, hz.1, hz.2⟩

/-- Claim C7: each fluent setter writes only its own field and leaves every
other field unchanged, returning the updated configuration for chaining; and
WithTls applied to a nil argument is a complete no-op, returning the
configuration with every field, including any previously set TLS options,
unchanged. -/
theorem c7_setters_frame (s : StooConfig) (b : Bool) (n p : String) (t : TLS) :
    ((s.WithUseTls b).useTls = b ∧
      (s.WithUseTls b).endpoint = s.endpoint ∧
      (s.WithUseTls b).readTimeout = s.readTimeout ∧
      (s.WithUseTls b).defaultNamespace = s.defaultNamespace ∧
      (s.WithUseTls b).defaultProfile = s.defaultProfile ∧
      (s.WithUseTls b).tls = s.tls) ∧
    ((s.WithDefaultNamespace n).defaultNamespace = n ∧
      (s.WithDefaultNamespace n).endpoint = s.endpoint ∧
      (s.WithDefaultNamespace n).useTls = s.useTls ∧
      (s.WithDefaultNamespace n).readTimeout = s.readTimeout ∧
      (s.WithDefaultNamespace n).defaultProfile = s.defaultProfile ∧
      (s.WithDefaultNamespace n).tls = s.tls) ∧
    ((s.WithDefaultProfile p).defaultProfile = p ∧
      (s.WithDefaultProfile p).endpoint = s.endpoint ∧
      (s.WithDefaultProfile p).useTls = s.useTls ∧
      (s.WithDefaultProfile p).readTimeout = s.readTimeout ∧
      (s.WithDefaultProfile p).defaultNamespace = s.defaultNamespace ∧
      (s.WithDefaultProfile p).tls = s.tls) ∧
    ((s.WithTls (some t)).tls = some t ∧
      (s.WithTls (some t)).endpoint = s.endpoint ∧
      (s.WithTls (some t)).useTls = s.useTls ∧
      (s.WithTls (some t)).readTimeout = s.readTimeout ∧
      (s.WithTls (some t)).defaultNamespace = s.defaultNamespace ∧
      (s.WithTls (some t)).defaultProfile = s.defaultProfile) ∧
    s.WithTls none = s :=
  ⟨⟨rfl, rfl, rfl, rfl, rfl, rfl⟩,
    ⟨rfl, rfl, rfl, rfl, rfl, rfl⟩,
    ⟨rfl, rfl, rfl, rfl, rfl, rfl⟩,
    ⟨rfl, rfl, rfl, rfl, rfl, rfl⟩,
    rfl⟩

/-- Claim C2: with useTls false the transport decision selects the plaintext
credential whatever the TLS options and file system are; with useTls true and
SkipTlsVerification true it selects TLS with server-certificate validation
disabled; with useTls true and SkipTlsVerification false it loads the CA
certificate from CaCertPath, a read failure being fatal. -/
theorem c2_transport_decision (caReadable : String → Bool) (cfg : StooConfig) (t : TLS) :
    (cfg.useTls = false →
      NewStoreClientTransport caReadable cfg =
        BuildOutcome.ok TransportCredential.insecureCredentials) ∧
    (cfg.useTls = true → cfg.tls = some t → t.SkipTlsVerification = true →
      NewStoreClientTransport caReadable cfg =
        BuildOutcome.ok TransportCredential.tlsSkipVerify) ∧
    (cfg.useTls = true → cfg.tls = some t → t.SkipTlsVerification = false →
      caReadable t.CaCertPath = true →
      NewStoreClientTransport caReadable cfg =
        BuildOutcome.ok
          (TransportCredential.tlsFromCaFile t.CaCertPath t.ServerNameOverride)) ∧
    (cfg.useTls = true → cfg.tls = some t → t.SkipTlsVerification = false →
      caReadable t.CaCertPath = false →
      NewStoreClientTransport caReadable cfg =
        BuildOutcome.fatalCaCertRead t.CaCertPath) := by
  refine ⟨?_, ?_, ?_, ?_⟩
  · intro hu
    simp [NewStoreClientTransport, StooConfig.GetUseTls, hu]
  · intro hu htls hskip
    simp [NewStoreClientTransport, StooConfig.GetUseTls, StooConfig.GetTls, hu, htls, hskip]
  · intro hu htls hskip hread
    simp [NewStoreClientTransport, StooConfig.GetUseTls, StooConfig.GetTls, hu, htls,
      hskip, hread]
  · intro hu htls hskip hread
    simp [NewStoreClientTransport, StooConfig.GetUseTls, StooConfig.GetTls, hu, htls,
      hskip, hread]

/-- TLS options asking to skip server-certificate verification. -/
def tlsSkipOpts : TLS :=
  { SkipTlsVerification := true
    CaCertPath := "/stookv/ca_cert.pem"
    ServerNameOverride := "stookv.example.com" }

/-- TLS options demanding server-certificate verification from a CA file. -/
def tlsVerifyOpts : TLS :=
  { SkipTlsVerification := false
    CaCertPath := "/stookv/ca_cert.pem"
    ServerNameOverride := "stookv.example.com" }

/-- A plaintext configuration that nevertheless carries TLS options. -/
def cfgPlainWithTlsOpts : StooConfig :=
  NewDefaultStooConfig.WithTls (some tlsSkipOpts)

/-- A TLS configuration that skips server-certificate verification. -/
def cfgTlsSkip : StooConfig :=
  (NewDefaultStooConfig.WithUseTls true).WithTls (some tlsSkipOpts)

/-- A TLS configuration that verifies the server certificate from a CA file. -/
def cfgTlsVerify : StooConfig :=
  (NewDefaultStooConfig.WithUseTls true).WithTls (some tlsVerifyOpts)

/-- Witness for C2: a plaintext configuration with TLS options still gets the
plaintext credential; a skip-verification configuration gets the unvalidated
TLS credential; a verifying configuration gets the CA-file credential when
the file is readable and the fatal outcome when it is not. -/
theorem c2_transport_decision_witness :
    cfgPlainWithTlsOpts.useTls = false ∧
    NewStoreClientTransport (fun _ => true) cfgPlainWithTlsOpts =
      BuildOutcome.ok TransportCredential.insecureCredentials ∧
    NewStoreClientTransport (fun _ => true) cfgTlsSkip =
      BuildOutcome.ok TransportCredential.tlsSkipVerify ∧
    NewStoreClientTransport (fun _ => true) cfgTlsVerify =
      BuildOutcome.ok
        (TransportCredential.tlsFromCaFile ("/stookv/ca_cert.pem")
          ("stookv.example.com")) ∧
    NewStoreClientTransport (fun _ => false) cfgTlsVerify =
      BuildOutcome.fatalCaCertRead ("/stookv/ca_cert.pem") := by
  refine ⟨rfl, ?_, ?_, ?_, ?_⟩
  · exact (c2_transport_decision (fun _ => true) cfgPlainWithTlsOpts tlsSkipOpts).1 rfl
  · exact (c2_transport_decision (fun _ => true) cfgTlsSkip tlsSkipOpts).2.1 rfl rfl rfl
  · exact (c2_transport_decision (fun _ => true) cfgTlsVerify tlsVerifyOpts).2.2.1
      rfl rfl rfl rfl
  · exact (c2_transport_decision (fun _ => false) cfgTlsVerify tlsVerifyOpts).2.2.2
      rfl rfl rfl rfl

/-- Claim C8: for every configuration with useTls true and no TLS options set
(the tls field nil), client construction dereferences a nil pointer when it
reads SkipTlsVerification, whatever the file system holds; safe construction
thus implicitly requires TLS options whenever useTls is true. -/
theorem c8_nil_tls_deref (caReadable : String → Bool) (cfg : StooConfig)
    (hu : cfg.useTls = true) (ht : cfg.tls = none) :
    NewStoreClientTransport caReadable cfg = BuildOutcome.nilPointerDeref := by
  simp [NewStoreClientTransport, StooConfig.GetUseTls, StooConfig.GetTls, hu, ht]

/-- Witness for C8: enabling TLS on the default configuration without setting
TLS options makes construction hit the nil-pointer dereference. -/
theorem c8_nil_tls_deref_witness :
    (NewDefaultStooConfig.WithUseTls true).useTls = true ∧
    (NewDefaultStooConfig.WithUseTls true).tls = none ∧
    NewStoreClientTransport (fun _ => true) (NewDefaultStooConfig.WithUseTls true) =
      BuildOutcome.nilPointerDeref :=
  ⟨rfl, rfl,
    c8_nil_tls_deref (fun _ => true) (NewDefaultStooConfig.WithUseTls true) rfl rfl⟩
